import Mathlib

/-!
Verification of the item-transport core of the shapez.io sample:
the spatial-transform algebra of `StaticMapEntityComponent`
(src/unnamed/part_000) and the per-tick ejector state machine of
`ItemEjectorSystem` (src/src/js/game/systems/item_ejector.js).

Machine numbers that the source treats as real numbers (slot progress,
speeds, draw coordinates) are embedded as rationals; grid coordinates are
integers.  A fatal assertion in the source is embedded as an `Option`
result whose `none` case is the assertion firing.  The direction/vector
utilities (`core/vector.js`) are external collaborators of the sample and
are modelled from the spec where noted.
-/

/-- A 2D vector, as in `core/vector.js`.  Tile coordinates are integers. -/
structure Vec2 where
  x : Int
  y : Int
deriving DecidableEq, Repr

instance : Add Vec2 where
  add a b := ⟨a.x + b.x, a.y + b.y⟩

instance : Sub Vec2 where
  sub a b := ⟨a.x - b.x, a.y - b.y⟩

/-- The four cardinal directions of `enumDirection` in `core/vector.js`. -/
inductive Direction
  | top
  | right
  | bottom
  | left
deriving DecidableEq, Repr

/-- The next direction clockwise in the 4-direction cycle. -/
def Direction.next : Direction → Direction
  | .top => .right
  | .right => .bottom
  | .bottom => .left
  | .left => .top

/-- Modelled from the spec: the cardinal-direction unit-vector lookup
`enumDirectionToVector` of `core/vector.js` (external collaborator, §6:
"cardinal-direction enumeration with a unit-vector lookup").  The y axis
points down, as the spec's scenario fixes ("right" rotated by 90° goes to
"down" with target tile (0,1)). -/
def enumDirectionToVector : Direction → Vec2
  | .top => ⟨0, -1⟩
  | .right => ⟨1, 0⟩
  | .bottom => ⟨0, 1⟩
  | .left => ⟨-1, 0⟩

/-- Modelled from the spec: `Vector.rotateFastMultipleOf90` of
`core/vector.js` (external collaborator, §4.1: "a fast multiple-of-90
rotation (no trigonometry; a 2x2 integer rotation matrix selected by a
4-way switch)").  Angle 360 acts as 0, as §4.1's "(360 - rotation) mod
360" requires; any other angle is the fatal default branch (`none`). -/
def Vec2.rotateFastMultipleOf90 (v : Vec2) (angle : Int) : Option Vec2 :=
  if angle = 0 ∨ angle = 360 then some v
  else if angle = 90 then some ⟨-v.y, v.x⟩
  else if angle = 180 then some ⟨-v.x, -v.y⟩
  else if angle = 270 then some ⟨v.y, -v.x⟩
  else none

/-- Modelled from the spec: `Vector.transformDirectionFromMultipleOf90` of
`core/vector.js` (external collaborator, §4.1: direction rotation is "an
index shift into the 4-direction cycle").  Angle 360 acts as 0; any other
angle is the fatal default branch (`none`). -/
def transformDirectionFromMultipleOf90 (d : Direction) (angle : Int) :
    Option Direction :=
  if angle = 0 ∨ angle = 360 then some d
  else if angle = 90 then some d.next
  else if angle = 180 then some d.next.next
  else if angle = 270 then some d.next.next.next
  else none

/-- A rectangle in tile space, as in `core/rectangle.js`. -/
structure Rectangle where
  x : Int
  y : Int
  w : Int
  h : Int
deriving DecidableEq, Repr

/-- The placement state of an entity: `StaticMapEntityComponent`
(src/unnamed/part_000).  `spriteKey`/`silhouetteColor` are
rendering-only and omitted. -/
structure StaticMapEntityComponent where
  origin : Vec2
  tileSize : Vec2
  rotation : Int
  originalRotation : Int
deriving DecidableEq, Repr

namespace StaticMapEntityComponent

/-- The constructor of `StaticMapEntityComponent` (part_000 lines 29-49):
it asserts `rotation % 90 === 0` (fatal = `none`) and stores the fields
unchanged.  No assertion is made on `originalRotation`. -/
def construct (origin tileSize : Vec2) (rotation originalRotation : Int) :
    Option StaticMapEntityComponent :=
  if rotation % 90 = 0 then
    some ⟨origin, tileSize, rotation, originalRotation⟩
  else
    none

/-- `getTileSpaceBounds` (part_000 lines 55-83): a 4-way switch on the
rotation; the default branch is the fatal assertion "Invalid rotation"
(`none`). -/
def getTileSpaceBounds (c : StaticMapEntityComponent) : Option Rectangle :=
  if c.rotation = 0 then
    some ⟨c.origin.x, c.origin.y, c.tileSize.x, c.tileSize.y⟩
  else if c.rotation = 90 then
    some ⟨c.origin.x - c.tileSize.y + 1, c.origin.y, c.tileSize.y, c.tileSize.x⟩
  else if c.rotation = 180 then
    some ⟨c.origin.x - c.tileSize.x + 1, c.origin.y - c.tileSize.y + 1,
          c.tileSize.x, c.tileSize.y⟩
  else if c.rotation = 270 then
    some ⟨c.origin.x, c.origin.y - c.tileSize.x + 1, c.tileSize.y, c.tileSize.x⟩
  else
    none

/-- `applyRotationToVector` (part_000 lines 90-92). -/
def applyRotationToVector (c : StaticMapEntityComponent) (v : Vec2) :
    Option Vec2 :=
  v.rotateFastMultipleOf90 c.rotation

/-- `unapplyRotationToVector` (part_000 lines 99-101). -/
def unapplyRotationToVector (c : StaticMapEntityComponent) (v : Vec2) :
    Option Vec2 :=
  v.rotateFastMultipleOf90 (360 - c.rotation)

/-- `localDirectionToWorld` (part_000 lines 108-110). -/
def localDirectionToWorld (c : StaticMapEntityComponent) (d : Direction) :
    Option Direction :=
  transformDirectionFromMultipleOf90 d c.rotation

/-- `worldDirectionToLocal` (part_000 lines 117-119). -/
def worldDirectionToLocal (c : StaticMapEntityComponent) (d : Direction) :
    Option Direction :=
  transformDirectionFromMultipleOf90 d (360 - c.rotation)

/-- `localTileToWorld` (part_000 lines 126-130): rotate, then translate by
the origin. -/
def localTileToWorld (c : StaticMapEntityComponent) (t : Vec2) :
    Option Vec2 :=
  (c.applyRotationToVector t).map (· + c.origin)

/-- `worldToLocalTile` (part_000 lines 136-139): translate by the negated
origin, then rotate back. -/
def worldToLocalTile (c : StaticMapEntityComponent) (w : Vec2) :
    Option Vec2 :=
  c.unapplyRotationToVector (w - c.origin)

end StaticMapEntityComponent

/-- The rotation of a placed entity is one of the four cardinal angles. -/
def validRotation (r : Int) : Prop :=
  r = 0 ∨ r = 90 ∨ r = 180 ∨ r = 270

instance (r : Int) : Decidable (validRotation r) := by
  unfold validRotation
  infer_instance

/-- An item reference (`BaseItem` of `game/base_item.js`, external: only
its identity matters to the ejector). -/
structure BaseItem where
  id : Nat
deriving DecidableEq, Repr

/-- One ejector slot of `ItemEjectorComponent` (`game/components/
item_ejector.js`, external collaborator): local position, local direction,
optional held item, and progress in [0,1]. -/
structure EjectorSlot where
  pos : Vec2
  direction : Direction
  item : Option BaseItem
  progress : ℚ
deriving DecidableEq, Repr

/-- The three receiver capabilities `tryPassOverItem` dispatches on, in
its priority order. -/
inductive Cap
  | belt
  | itemProcessor
  | undergroundBelt
deriving DecidableEq, Repr

/-- Modelled from the spec: the direct-lane-carrier capability (`Belt`
component, external).  `canAcceptNewItem(localDirection)` is its
acceptance test; `takeNewItem` itself only mutates the belt, which the
embedding records as a delivery. -/
structure BeltComponent where
  canAcceptNewItem : Direction → Bool

/-- Modelled from the spec: the multi-slot-processor capability
(`ItemProcessor` component, external) with
`tryTakeItem(item, slotIndex, localDirection) -> bool`. -/
structure ItemProcessorComponent where
  tryTakeItem : BaseItem → Nat → Direction → Bool

/-- Modelled from the spec: the teleport-relay capability
(`UndergroundBelt` component, external) with
`tryAcceptExternalItem(item, transferSpeed) -> bool`. -/
structure UndergroundBeltComponent where
  tryAcceptExternalItem : BaseItem → ℚ → Bool

/-- A slot-matching result of `ItemAcceptorComponent.findMatchingSlot`:
a slot index and the accepted direction in the receiver's local frame. -/
structure AcceptorSlotMatch where
  index : Nat
  acceptedDirection : Direction
deriving DecidableEq, Repr

/-- Modelled from the spec: the `ItemAcceptor` component (external) with
`findMatchingSlot(localTile, localDirection)` and
`canAcceptItem(slotIndex, item)`. -/
structure ItemAcceptorComponent where
  findMatchingSlot : Vec2 → Direction → Option AcceptorSlotMatch
  canAcceptItem : Nat → BaseItem → Bool

/-- A candidate receiver entity as `ItemEjectorSystem` sees it: its
placement component plus the optional acceptor and capability
components. -/
structure ReceiverEntity where
  static : StaticMapEntityComponent
  acceptor : Option ItemAcceptorComponent
  belt : Option BeltComponent
  itemProcessor : Option ItemProcessorComponent
  undergroundBelt : Option UndergroundBeltComponent

/-- The outcome of one `tryPassOverItem` call: its boolean result, which
capability components were consulted (in call order), and the items whose
ownership passed to the receiver. -/
structure PassResult where
  success : Bool
  calls : List Cap
  delivered : List BaseItem
deriving DecidableEq, Repr

/-- The UndergroundBelt step of `ItemEjectorSystem.tryPassOverItem`
(item_ejector.js lines 119-132): if an `UndergroundBelt` component is
present, call `tryAcceptExternalItem(item, undergroundSpeed)`; a true
result returns true, otherwise fall off the end of the method, which
returns false.  `callsSoFar` carries the capability calls already made by
the earlier steps. -/
def tryPassUnderground (undergroundSpeed : ℚ) (item : BaseItem)
    (receiver : ReceiverEntity) (callsSoFar : List Cap) : PassResult :=
  match receiver.undergroundBelt with
  | some undergroundComp =>
    if undergroundComp.tryAcceptExternalItem item undergroundSpeed then
      ⟨true, callsSoFar ++ [Cap.undergroundBelt], [item]⟩
    else
      ⟨false, callsSoFar ++ [Cap.undergroundBelt], []⟩
  | none => ⟨false, callsSoFar, []⟩

/-- The ItemProcessor step of `ItemEjectorSystem.tryPassOverItem`
(item_ejector.js lines 111-117): if an `ItemProcessor` component is
present, call `tryTakeItem(item, slotIndex, localDirection)`; a true
result returns true, a false result falls through to the UndergroundBelt
step. -/
def tryPassProcessor (undergroundSpeed : ℚ) (item : BaseItem)
    (receiver : ReceiverEntity) (slotIndex : Nat)
    (localDirection : Direction) (callsSoFar : List Cap) : PassResult :=
  match receiver.itemProcessor with
  | some processorComp =>
    if processorComp.tryTakeItem item slotIndex localDirection then
      ⟨true, callsSoFar ++ [Cap.itemProcessor], [item]⟩
    else
      tryPassUnderground undergroundSpeed item receiver
        (callsSoFar ++ [Cap.itemProcessor])
  | none => tryPassUnderground undergroundSpeed item receiver callsSoFar

/-- `ItemEjectorSystem.tryPassOverItem` (item_ejector.js lines 97-133):
each present capability component is consulted in the order Belt,
ItemProcessor, UndergroundBelt; a call returning true returns true at
once (for the belt, `takeNewItem` transfers the item first); a present
capability whose call returns false falls through to the next component.
`undergroundSpeed` is `this.root.hubGoals.getUndergroundBeltBaseSpeed()`. -/
def tryPassOverItem (undergroundSpeed : ℚ) (item : BaseItem)
    (receiver : ReceiverEntity) (slotIndex : Nat)
    (localDirection : Direction) : PassResult :=
  match receiver.belt with
  | some beltComp =>
    if beltComp.canAcceptNewItem localDirection then
      ⟨true, [Cap.belt], [item]⟩
    else
      tryPassProcessor undergroundSpeed item receiver slotIndex
        localDirection [Cap.belt]
  | none =>
    tryPassProcessor undergroundSpeed item receiver slotIndex localDirection []

/-- The read-only collaborators a tick reads: the world grid lookup
(`root.map.getTileContent`) and the global progression/config values. -/
structure GameEnv where
  getTileContent : Vec2 → Option ReceiverEntity
  beltBaseSpeed : ℚ
  undergroundBeltBaseSpeed : ℚ
  physicsDeltaSeconds : ℚ

/-- The per-tick progress growth (item_ejector.js lines 16-17):
`(effectiveBeltSpeed / 0.5) * globalConfig.physicsDeltaSeconds`. -/
def progressGrowth (env : GameEnv) : ℚ :=
  env.beltBaseSpeed / (1 / 2) * env.physicsDeltaSeconds

/-- What one slot's processing step did this tick: the slot's new state,
the world-grid tiles queried, the capability components consulted, the
items delivered to the receiver, and whether `tryPassOverItem` succeeded. -/
structure SlotStepResult where
  slot : EjectorSlot
  gridQueries : List Vec2
  capCalls : List Cap
  delivered : List BaseItem
  success : Bool
deriving DecidableEq, Repr

/-- The body of `ItemEjectorSystem.update` for one ejector slot
(item_ejector.js lines 26-86), with the source's fatal geometry
assertions surfacing as `none`:

* no held item: `continue` untouched;
* advance `progress := min 1 (progress + growth)` in place; if still
  below 1, `continue` — no grid query, no handoff;
* otherwise compute the world exit tile and direction, query the grid at
  the target tile, require an `ItemAcceptor`, a matching slot in the
  receiver's local frame, `canAcceptItem`, then call `tryPassOverItem`;
  on a true result clear `item`; every failure leaves the advanced slot
  as is. -/
def updateSlot (env : GameEnv) (c : StaticMapEntityComponent)
    (slot : EjectorSlot) : Option SlotStepResult :=
  match slot.item with
  | none => some ⟨slot, [], [], [], false⟩
  | some ejectingItem =>
    let slot' : EjectorSlot :=
      { slot with progress := min 1 (slot.progress + progressGrowth env) }
    if slot'.progress < 1 then
      some ⟨slot', [], [], [], false⟩
    else
      match c.localTileToWorld slot.pos, c.localDirectionToWorld slot.direction with
      | some ejectSlotWsTile, some ejectSlotWsDirection =>
        let ejectSlotTargetWsTile :=
          ejectSlotWsTile + enumDirectionToVector ejectSlotWsDirection
        match env.getTileContent ejectSlotTargetWsTile with
        | none => some ⟨slot', [ejectSlotTargetWsTile], [], [], false⟩
        | some targetEntity =>
          match targetEntity.acceptor with
          | none => some ⟨slot', [ejectSlotTargetWsTile], [], [], false⟩
          | some targetAcceptorComp =>
            match targetEntity.static.worldToLocalTile ejectSlotTargetWsTile,
                  targetEntity.static.worldDirectionToLocal ejectSlotWsDirection with
            | some localTile, some localDirection =>
              match targetAcceptorComp.findMatchingSlot localTile localDirection with
              | none => some ⟨slot', [ejectSlotTargetWsTile], [], [], false⟩
              | some matchingSlot =>
                if targetAcceptorComp.canAcceptItem matchingSlot.index ejectingItem then
                  let pass := tryPassOverItem env.undergroundBeltBaseSpeed
                    ejectingItem targetEntity matchingSlot.index
                    matchingSlot.acceptedDirection
                  if pass.success then
                    some ⟨{ slot' with item := none }, [ejectSlotTargetWsTile],
                          pass.calls, pass.delivered, true⟩
                  else
                    some ⟨slot', [ejectSlotTargetWsTile], pass.calls,
                          pass.delivered, false⟩
                else
                  some ⟨slot', [ejectSlotTargetWsTile], [], [], false⟩
            | _, _ => none
      | _, _ => none

/-- The draw position of one slot, `ItemEjectorSystem.drawSingleEntity`
(item_ejector.js lines 143-172).  The outer `Option` is the fatal
geometry assertion; the inner `Option` is `none` for an idle slot, which
is skipped before any geometry is touched.  `tileSize` is
`globalConfig.tileSize` in pixels. -/
def drawSlotPosition (tileSize : ℚ) (c : StaticMapEntityComponent)
    (slot : EjectorSlot) : Option (Option (ℚ × ℚ)) :=
  match slot.item with
  | none => some none
  | some _ =>
    match slot.pos.rotateFastMultipleOf90 c.rotation,
          transformDirectionFromMultipleOf90 slot.direction c.rotation with
    | some realPosition, some realDirection =>
      let realDirectionVector := enumDirectionToVector realDirection
      let tileX : ℚ := c.origin.x + realPosition.x + 1 / 2
        + realDirectionVector.x * (1 / 2) * slot.progress
      let tileY : ℚ := c.origin.y + realPosition.y + 1 / 2
        + realDirectionVector.y * (1 / 2) * slot.progress
      some (some (tileX * tileSize, tileY * tileSize))
    | _, _ => none

/-- The draw-position formula exactly as claim C9's words state it
(`entityOrigin + rotate(localPosition) + rotate(localDirectionUnitVector)
* 0.5 * progress`, scaled by tileSize), for comparison with the source's
`drawSlotPosition`.  It lacks the source's half-tile center offset. -/
def claimedDrawSlotPosition (tileSize : ℚ) (c : StaticMapEntityComponent)
    (slot : EjectorSlot) : Option (Option (ℚ × ℚ)) :=
  match slot.item with
  | none => some none
  | some _ =>
    match slot.pos.rotateFastMultipleOf90 c.rotation,
          transformDirectionFromMultipleOf90 slot.direction c.rotation with
    | some realPosition, some realDirection =>
      let realDirectionVector := enumDirectionToVector realDirection
      let tileX : ℚ := c.origin.x + realPosition.x
        + realDirectionVector.x * (1 / 2) * slot.progress
      let tileY : ℚ := c.origin.y + realPosition.y
        + realDirectionVector.y * (1 / 2) * slot.progress
      some (some (tileX * tileSize, tileY * tileSize))
    | _, _ => none

/-! ## Test fixtures

Concrete worlds, receivers and slots the counterexamples and witnesses
evaluate the embedded code on. -/

/-- Fixture: a receiver exposing both a Belt that refuses every item and
an ItemProcessor that takes every item. -/
def dualCapReceiver : ReceiverEntity :=
  ⟨⟨⟨0, 0⟩, ⟨1, 1⟩, 0, 0⟩, none, some ⟨fun _ => false⟩,
    some ⟨fun _ _ _ => true⟩, none⟩

/-- Fixture: an always-accepting belt receiver placed at tile (1, 0). -/
def acceptingBeltReceiver : ReceiverEntity :=
  ⟨⟨⟨1, 0⟩, ⟨1, 1⟩, 0, 0⟩,
    some ⟨fun _ _ => some ⟨0, Direction.left⟩, fun _ _ => true⟩,
    some ⟨fun _ => true⟩, none, none⟩

/-- Fixture: a world with the accepting belt receiver at tile (1, 0),
belt speed 1/2 and tick length 1, so the progress growth is 1. -/
def envWithBelt : GameEnv :=
  ⟨fun t => if t = ⟨1, 0⟩ then some acceptingBeltReceiver else none,
    1 / 2, 1, 1⟩

/-- Fixture: an empty world with belt speed 1/2 and tick length 1, so the
progress growth is 1. -/
def envEmpty : GameEnv :=
  ⟨fun _ => none, 1 / 2, 1, 1⟩

/-- Fixture: an empty world with belt speed 1/20 and tick length 1, so
the progress growth is 1/10. -/
def envSlow : GameEnv :=
  ⟨fun _ => none, 1 / 20, 1, 1⟩

/-- Fixture: an emitter placed at the world origin with rotation 0. -/
def emitterStatic : StaticMapEntityComponent :=
  ⟨⟨0, 0⟩, ⟨1, 1⟩, 0, 0⟩

/-- Fixture: a slot at local tile (0, 0) pointing right and holding item
number 7, at the given progress. -/
def slotHolding (progress : ℚ) : EjectorSlot :=
  ⟨⟨0, 0⟩, Direction.right, some ⟨7⟩, progress⟩

/-! ## Helper lemmas -/

theorem Vec2.add_def (a b : Vec2) : a + b = ⟨a.x + b.x, a.y + b.y⟩ := rfl

theorem Vec2.sub_def (a b : Vec2) : a - b = ⟨a.x - b.x, a.y - b.y⟩ := rfl

/-- Every result of the UndergroundBelt step delivers the item exactly
when it succeeds. -/
theorem tryPassUnderground_delivered (u : ℚ) (i : BaseItem)
    (r : ReceiverEntity) (cs : List Cap) :
    (tryPassUnderground u i r cs).delivered
      = if (tryPassUnderground u i r cs).success then [i] else [] := by
  unfold tryPassUnderground
  cases hug : r.undergroundBelt with
  | none => simp only [hug]; rfl
  | some undergroundComp =>
    simp only [hug]
    split <;> rfl

/-- Every result of the ItemProcessor step delivers the item exactly when
it succeeds. -/
theorem tryPassProcessor_delivered (u : ℚ) (i : BaseItem)
    (r : ReceiverEntity) (s : Nat) (d : Direction) (cs : List Cap) :
    (tryPassProcessor u i r s d cs).delivered
      = if (tryPassProcessor u i r s d cs).success then [i] else [] := by
  unfold tryPassProcessor
  cases hp : r.itemProcessor with
  | none => simp only [hp]; exact tryPassUnderground_delivered u i r cs
  | some processorComp =>
    simp only [hp]
    split
    · rfl
    · exact tryPassUnderground_delivered u i r _

/-- Every result of `tryPassOverItem` delivers the item exactly when it
succeeds: a false result never moves ownership. -/
theorem tryPassOverItem_delivered (u : ℚ) (i : BaseItem)
    (r : ReceiverEntity) (s : Nat) (d : Direction) :
    (tryPassOverItem u i r s d).delivered
      = if (tryPassOverItem u i r s d).success then [i] else [] := by
  unfold tryPassOverItem
  cases hb : r.belt with
  | none => simp only [hb]; exact tryPassProcessor_delivered u i r s d []
  | some beltComp =>
    simp only [hb]
    split
    · rfl
    · exact tryPassProcessor_delivered u i r s d _

/-- Shape of one slot step on a slot holding an item: either the handoff
did not succeed and the slot only advanced its progress with nothing
delivered, or it succeeded, the item was cleared, exactly one copy was
delivered, and the advanced progress was exactly 1. -/
theorem updateSlot_shape (env : GameEnv) (c : StaticMapEntityComponent)
    (slot : EjectorSlot) (it : BaseItem) (res : SlotStepResult)
    (hitem : slot.item = some it) (hstep : updateSlot env c slot = some res) :
    (res.success = false
      ∧ res.slot
          = { slot with progress := min 1 (slot.progress + progressGrowth env) }
      ∧ res.delivered = [])
    ∨ (res.success = true
      ∧ res.slot
          = { slot with
              progress := min 1 (slot.progress + progressGrowth env),
              item := none }
      ∧ res.delivered = [it]
      ∧ min 1 (slot.progress + progressGrowth env) = 1) := by
  unfold updateSlot at hstep
  rw [hitem] at hstep
  dsimp only at hstep
  split at hstep
  · left
    obtain rfl := (Option.some_inj.mp hstep).symm
    exact ⟨rfl, by rw [hitem], rfl⟩
  · rename_i hge
    have hmin : min 1 (slot.progress + progressGrowth env) = 1 :=
      le_antisymm (min_le_left _ _) (not_lt.mp hge)
    split at hstep
    · rename_i wsTile wsDir hA hB
      split at hstep
      · left
        obtain rfl := (Option.some_inj.mp hstep).symm
        exact ⟨rfl, by rw [hitem], rfl⟩
      · rename_i targetEntity hC
        split at hstep
        · left
          obtain rfl := (Option.some_inj.mp hstep).symm
          exact ⟨rfl, by rw [hitem], rfl⟩
        · rename_i acceptorComp hD
          split at hstep
          · rename_i localTile localDir hE hF
            split at hstep
            · left
              obtain rfl := (Option.some_inj.mp hstep).symm
              exact ⟨rfl, by rw [hitem], rfl⟩
            · rename_i matchingSlot hG
              split at hstep
              · rename_i hAcc
                split at hstep
                · rename_i hPass
                  right
                  obtain rfl := (Option.some_inj.mp hstep).symm
                  refine ⟨rfl, rfl, ?_, hmin⟩
                  have := tryPassOverItem_delivered env.undergroundBeltBaseSpeed
                    it targetEntity matchingSlot.index matchingSlot.acceptedDirection
                  rw [this, if_pos hPass]
                · rename_i hPass
                  left
                  obtain rfl := (Option.some_inj.mp hstep).symm
                  refine ⟨rfl, by rw [hitem], ?_⟩
                  have := tryPassOverItem_delivered env.undergroundBeltBaseSpeed
                    it targetEntity matchingSlot.index matchingSlot.acceptedDirection
                  rw [this, if_neg hPass]
              · left
                obtain rfl := (Option.some_inj.mp hstep).symm
                exact ⟨rfl, by rw [hitem], rfl⟩
          · exact absurd hstep (by simp)
    · exact absurd hstep (by simp)

/-! ## Claims about the spatial transform -/

/-- C2: for every rotation in {0, 90, 180, 270}, every integer origin and
every integer local tile `t`, `worldToLocalTile (localTileToWorld t) = t`
on a `StaticMapEntityComponent` (position transform round-trip). -/
theorem c2_position_roundtrip (c : StaticMapEntityComponent) (t : Vec2)
    (h : validRotation c.rotation) :
    (c.localTileToWorld t).bind c.worldToLocalTile = some t := by
  obtain ⟨tx, ty⟩ := t
  obtain h | h | h | h := h <;>
    simp [StaticMapEntityComponent.localTileToWorld,
      StaticMapEntityComponent.worldToLocalTile,
      StaticMapEntityComponent.applyRotationToVector,
      StaticMapEntityComponent.unapplyRotationToVector,
      Vec2.rotateFastMultipleOf90, h, Vec2.add_def, Vec2.sub_def]

/-- Witness for C2 at rotation 90, origin (5, -3), local tile (2, 3). -/
theorem c2_position_roundtrip_witness :
    validRotation (90 : Int)
    ∧ ((StaticMapEntityComponent.mk ⟨5, -3⟩ ⟨2, 4⟩ 90 0).localTileToWorld
          ⟨2, 3⟩).bind
        (StaticMapEntityComponent.mk ⟨5, -3⟩ ⟨2, 4⟩ 90 0).worldToLocalTile
        = some ⟨2, 3⟩ :=
  ⟨by decide, c2_position_roundtrip ⟨⟨5, -3⟩, ⟨2, 4⟩, 90, 0⟩ ⟨2, 3⟩ (by decide)⟩

/-- C3: for every cardinal direction and every rotation in
{0, 90, 180, 270}, `worldDirectionToLocal (localDirectionToWorld d) = d`,
and direction rotation agrees with position rotation: taking the unit
vector of the rotated direction equals rotating the direction's unit
vector, so a slot's position and exit direction stay mutually consistent
under any transform. -/
theorem c3_direction_roundtrip_consistent (c : StaticMapEntityComponent)
    (d : Direction) (h : validRotation c.rotation) :
    (c.localDirectionToWorld d).bind c.worldDirectionToLocal = some d
    ∧ (c.localDirectionToWorld d).map enumDirectionToVector
        = c.applyRotationToVector (enumDirectionToVector d) := by
  obtain h | h | h | h := h <;> cases d <;>
    simp [StaticMapEntityComponent.localDirectionToWorld,
      StaticMapEntityComponent.worldDirectionToLocal,
      StaticMapEntityComponent.applyRotationToVector,
      transformDirectionFromMultipleOf90, Vec2.rotateFastMultipleOf90,
      Direction.next, enumDirectionToVector, h]

/-- Witness for C3 at rotation 90 and direction `right`. -/
theorem c3_direction_roundtrip_consistent_witness :
    validRotation (90 : Int)
    ∧ (((StaticMapEntityComponent.mk ⟨0, 0⟩ ⟨1, 1⟩ 90 0).localDirectionToWorld
          Direction.right).bind
        (StaticMapEntityComponent.mk ⟨0, 0⟩ ⟨1, 1⟩ 90 0).worldDirectionToLocal
        = some Direction.right
      ∧ ((StaticMapEntityComponent.mk ⟨0, 0⟩ ⟨1, 1⟩ 90 0).localDirectionToWorld
            Direction.right).map enumDirectionToVector
          = (StaticMapEntityComponent.mk ⟨0, 0⟩ ⟨1, 1⟩ 90 0).applyRotationToVector
              (enumDirectionToVector Direction.right)) :=
  ⟨by decide,
    c3_direction_roundtrip_consistent ⟨⟨0, 0⟩, ⟨1, 1⟩, 90, 0⟩ Direction.right
      (by decide)⟩

/-- C4 counterexample: the constructor accepts `originalRotation = 45`,
which is not a multiple of 90, so construction does not fail whenever
`originalRotation` is not a multiple of 90. -/
theorem c4_counterexample :
    (StaticMapEntityComponent.construct ⟨0, 0⟩ ⟨1, 1⟩ 0 45).isSome = true
    ∧ ¬((45 : Int) % 90 = 0) := by
  decide

/-- C4 amended: construction fails fatally exactly when `rotation` is not
a multiple of 90 — `originalRotation` is not validated — and on success
all four fields are stored unchanged. -/
theorem c4_construct_validates_rotation_only (origin tileSize : Vec2)
    (rotation originalRotation : Int) :
    ((StaticMapEntityComponent.construct origin tileSize rotation
        originalRotation).isSome ↔ rotation % 90 = 0)
    ∧ ∀ c, StaticMapEntityComponent.construct origin tileSize rotation
        originalRotation = some c →
        c.origin = origin ∧ c.tileSize = tileSize ∧ c.rotation = rotation
          ∧ c.originalRotation = originalRotation := by
  unfold StaticMapEntityComponent.construct
  constructor
  · split <;> simp_all
  · intro c hc
    split at hc <;> simp_all
    obtain rfl := hc.symm
    simp

/-- C8: whenever `getTileSpaceBounds` returns a rectangle, its area equals
`tileSize.x * tileSize.y` (invariant under rotation), and for rotations
90/270 the width and height are swapped with the anchor shifted by
(dimension - 1) exactly as the per-rotation cases state. -/
theorem c8_bounds_area_invariant (c : StaticMapEntityComponent)
    (rect : Rectangle) (h : c.getTileSpaceBounds = some rect) :
    rect.w * rect.h = c.tileSize.x * c.tileSize.y
    ∧ (c.rotation = 0 →
        rect = ⟨c.origin.x, c.origin.y, c.tileSize.x, c.tileSize.y⟩)
    ∧ (c.rotation = 90 →
        rect = ⟨c.origin.x - c.tileSize.y + 1, c.origin.y, c.tileSize.y,
                c.tileSize.x⟩)
    ∧ (c.rotation = 180 →
        rect = ⟨c.origin.x - c.tileSize.x + 1, c.origin.y - c.tileSize.y + 1,
                c.tileSize.x, c.tileSize.y⟩)
    ∧ (c.rotation = 270 →
        rect = ⟨c.origin.x, c.origin.y - c.tileSize.x + 1, c.tileSize.y,
                c.tileSize.x⟩) := by
  unfold StaticMapEntityComponent.getTileSpaceBounds at h
  split at h <;> rename_i hr
  · obtain rfl := Option.some_injective _ h.symm
    refine ⟨rfl, fun _ => rfl, ?_, ?_, ?_⟩ <;> intro h' <;> omega
  · split at h <;> rename_i hr'
    · obtain rfl := Option.some_injective _ h.symm
      exact ⟨mul_comm _ _, fun h0 => absurd h0 hr, fun _ => rfl,
        fun h' => by omega, fun h' => by omega⟩
    · split at h <;> rename_i hr''
      · obtain rfl := Option.some_injective _ h.symm
        exact ⟨rfl, fun h0 => absurd h0 hr, fun h' => by omega, fun _ => rfl,
          fun h' => by omega⟩
      · split at h <;> rename_i hr'''
        · obtain rfl := Option.some_injective _ h.symm
          exact ⟨mul_comm _ _, fun h0 => absurd h0 hr, fun h' => by omega,
            fun h' => by omega, fun _ => rfl⟩
        · exact absurd h (by simp)

/-- Witness for C8 at rotation 90, origin (0, 0), footprint (2, 3). -/
theorem c8_bounds_area_invariant_witness :
    (StaticMapEntityComponent.mk ⟨0, 0⟩ ⟨2, 3⟩ 90 0).getTileSpaceBounds
        = some ⟨-2, 0, 3, 2⟩
    ∧ (3 : Int) * 2 = 2 * 3 :=
  ⟨by decide,
    (c8_bounds_area_invariant ⟨⟨0, 0⟩, ⟨2, 3⟩, 90, 0⟩ ⟨-2, 0, 3, 2⟩
      (by decide)).1⟩

/-- C10: every rotation that is a multiple of 90 but outside
{0, 90, 180, 270} (for example 360 or -90) is accepted by the
constructor, and on such a component `getTileSpaceBounds` reaches its
fatal default branch; that branch fires exactly when the rotation is
outside {0, 90, 180, 270}. -/
theorem c10_invalid_rotation_reaches_bounds_assert (o t : Vec2)
    (r orig : Int) (h90 : r % 90 = 0) (hnv : ¬ validRotation r) :
    (∃ c, StaticMapEntityComponent.construct o t r orig = some c
        ∧ c.getTileSpaceBounds = none)
    ∧ ∀ c : StaticMapEntityComponent,
        (c.getTileSpaceBounds = none ↔ ¬ validRotation c.rotation) := by
  constructor
  · refine ⟨⟨o, t, r, orig⟩, ?_, ?_⟩
    · simp [StaticMapEntityComponent.construct, h90]
    · unfold validRotation at hnv
      push_neg at hnv
      simp [StaticMapEntityComponent.getTileSpaceBounds, hnv.1, hnv.2.1,
        hnv.2.2.1, hnv.2.2.2]
  · intro c
    unfold StaticMapEntityComponent.getTileSpaceBounds validRotation
    split <;> rename_i h0
    · simp [h0]
    · split <;> rename_i h1
      · simp [h0, h1]
      · split <;> rename_i h2
        · simp [h0, h1, h2]
        · split <;> rename_i h3 <;> simp [h0, h1, h2, h3]

/-- Witness for C10 at rotation 360. -/
theorem c10_invalid_rotation_reaches_bounds_assert_witness :
    (360 : Int) % 90 = 0 ∧ ¬ validRotation 360
    ∧ ((∃ c, StaticMapEntityComponent.construct ⟨0, 0⟩ ⟨1, 1⟩ 360 0 = some c
          ∧ c.getTileSpaceBounds = none)
      ∧ ∀ c : StaticMapEntityComponent,
          (c.getTileSpaceBounds = none ↔ ¬ validRotation c.rotation)) :=
  ⟨by decide, by decide,
    c10_invalid_rotation_reaches_bounds_assert ⟨0, 0⟩ ⟨1, 1⟩ 360 0 (by decide)
      (by decide)⟩

/-! ## Claims about the ejector tick and the handoff protocol -/

/-- C1 counterexample: on a receiver exposing both a Belt that refuses
and an ItemProcessor that accepts, the Belt call's false result falls
through and the ItemProcessor is also called, so a later capability's
call is made in a handoff although the receiver exposes an earlier
capability. -/
theorem c1_counterexample :
    dualCapReceiver.belt.isSome = true
    ∧ (tryPassOverItem 1 ⟨7⟩ dualCapReceiver 0 Direction.top).calls
        = [Cap.belt, Cap.itemProcessor]
    ∧ (tryPassOverItem 1 ⟨7⟩ dualCapReceiver 0 Direction.top).success
        = true :=
  ⟨rfl, rfl, rfl⟩

/-- C1 amended: per handoff the capability calls are attempted in the
fixed priority order Belt, ItemProcessor, UndergroundBelt, restricted to
the capabilities the receiver exposes, and the chain stops at the first
call that returns true; an exposed capability whose call returns false
does not stop later capabilities from being called: an exposed
ItemProcessor is consulted whenever no Belt accepted, an exposed
UndergroundBelt is consulted whenever no Belt accepted and no
ItemProcessor took the item, and then the handoff succeeds exactly when
the relay's call accepts; when every exposed capability refuses the
handoff fails.  A true result delivers the item exactly once, a false
result delivers nothing. -/
theorem c1_capability_priority (undergroundSpeed : ℚ) (item : BaseItem)
    (receiver : ReceiverEntity) (slotIndex : Nat) (localDirection : Direction)
    (res : PassResult)
    (hres : res = tryPassOverItem undergroundSpeed item receiver slotIndex
        localDirection) :
    res.calls.Sublist [Cap.belt, Cap.itemProcessor, Cap.undergroundBelt]
    ∧ (Cap.belt ∈ res.calls ↔ receiver.belt.isSome = true)
    ∧ (Cap.itemProcessor ∈ res.calls → receiver.itemProcessor.isSome = true)
    ∧ (Cap.undergroundBelt ∈ res.calls → receiver.undergroundBelt.isSome = true)
    ∧ (∀ beltComp, receiver.belt = some beltComp →
        beltComp.canAcceptNewItem localDirection = true →
        res = ⟨true, [Cap.belt], [item]⟩)
    ∧ (∀ processorComp, receiver.itemProcessor = some processorComp →
        (∀ beltComp, receiver.belt = some beltComp →
          beltComp.canAcceptNewItem localDirection = false) →
        Cap.itemProcessor ∈ res.calls)
    ∧ (∀ processorComp, receiver.itemProcessor = some processorComp →
        processorComp.tryTakeItem item slotIndex localDirection = true →
        Cap.undergroundBelt ∉ res.calls ∧ res.success = true)
    ∧ (∀ undergroundComp, receiver.undergroundBelt = some undergroundComp →
        (∀ beltComp, receiver.belt = some beltComp →
          beltComp.canAcceptNewItem localDirection = false) →
        (∀ processorComp, receiver.itemProcessor = some processorComp →
          processorComp.tryTakeItem item slotIndex localDirection = false) →
        Cap.undergroundBelt ∈ res.calls
          ∧ res.success
              = undergroundComp.tryAcceptExternalItem item undergroundSpeed)
    ∧ ((∀ beltComp, receiver.belt = some beltComp →
          beltComp.canAcceptNewItem localDirection = false) →
        (∀ processorComp, receiver.itemProcessor = some processorComp →
          processorComp.tryTakeItem item slotIndex localDirection = false) →
        (∀ undergroundComp, receiver.undergroundBelt = some undergroundComp →
          undergroundComp.tryAcceptExternalItem item undergroundSpeed = false) →
        res.success = false)
    ∧ (res.success = true → res.delivered = [item])
    ∧ (res.success = false → res.delivered = []) := by
  subst hres
  obtain ⟨st, acc, belt, proc, ug⟩ := receiver
  unfold tryPassOverItem tryPassProcessor tryPassUnderground
  cases belt <;> cases proc <;> cases ug <;> dsimp only <;>
    (try split_ifs) <;> simp_all

/-- Witness for C1 amended on the dual-capability receiver fixture. -/
theorem c1_capability_priority_witness :
    (⟨true, [Cap.belt, Cap.itemProcessor], [⟨7⟩]⟩ : PassResult)
        = tryPassOverItem 1 ⟨7⟩ dualCapReceiver 0 Direction.top
    ∧ ([Cap.belt, Cap.itemProcessor] : List Cap).Sublist
        [Cap.belt, Cap.itemProcessor, Cap.undergroundBelt] :=
  ⟨rfl,
    (c1_capability_priority 1 ⟨7⟩ dualCapReceiver 0 Direction.top
      ⟨true, [Cap.belt, Cap.itemProcessor], [⟨7⟩]⟩ rfl).1⟩

/-- C5: a slot holding an item whose progress is still below 1 after the
per-tick advance only stores the advanced progress: no world-grid query,
no capability call, no delivery, no handoff attempt, and the held item is
untouched. -/
theorem c5_below_one_no_receiver_lookup (env : GameEnv)
    (c : StaticMapEntityComponent) (slot : EjectorSlot) (it : BaseItem)
    (hitem : slot.item = some it)
    (hlt : min 1 (slot.progress + progressGrowth env) < 1) :
    updateSlot env c slot
      = some ⟨{ slot with progress := min 1 (slot.progress + progressGrowth env) },
              [], [], [], false⟩ := by
  unfold updateSlot
  rw [hitem]
  simp [hlt]

/-- Witness for C5: growth 1/10 on a fresh slot leaves progress at 1/10
with no grid query. -/
theorem c5_below_one_no_receiver_lookup_witness :
    (slotHolding 0).item = some ⟨7⟩
    ∧ min 1 ((slotHolding 0).progress + progressGrowth envSlow) < 1
    ∧ updateSlot envSlow emitterStatic (slotHolding 0)
        = some ⟨{ slotHolding 0 with
                  progress := min 1 ((slotHolding 0).progress
                    + progressGrowth envSlow) },
                [], [], [], false⟩ :=
  ⟨rfl,
    by norm_num [slotHolding, progressGrowth, envSlow, min_def],
    c5_below_one_no_receiver_lookup envSlow emitterStatic (slotHolding 0) ⟨7⟩
      rfl (by norm_num [slotHolding, progressGrowth, envSlow, min_def])⟩

/-- C6: a slot with progress 1 whose handoff does not succeed this tick
(no entity at the target, no acceptor, no matching slot, acceptance
refused, or the capability call returned false — in every such case the
step reports no success) keeps its held item and progress identical, no
ownership moves to the receiver, and with the environment unchanged the
next tick produces the identical result. -/
theorem c6_blocked_slot_idempotent (env : GameEnv)
    (c : StaticMapEntityComponent) (slot : EjectorSlot) (it : BaseItem)
    (res : SlotStepResult) (hitem : slot.item = some it)
    (hprog : slot.progress = 1) (hg : 0 ≤ progressGrowth env)
    (hstep : updateSlot env c slot = some res) (hfail : res.success = false) :
    res.slot = slot ∧ res.delivered = []
      ∧ updateSlot env c res.slot = some res := by
  rcases updateSlot_shape env c slot it res hitem hstep with
    ⟨_, hslot, hdel⟩ | ⟨hs, _, _, _⟩
  · have hmin : min 1 (slot.progress + progressGrowth env) = 1 := by
      rw [hprog]
      exact min_eq_left (by linarith)
    have hslot' : res.slot = slot := by
      rw [hslot, hmin, ← hprog]
    exact ⟨hslot', hdel, by rw [hslot', hstep]⟩
  · rw [hfail] at hs
    exact absurd hs (by simp)

/-- Witness for C6: the blocked slot in the empty world is unchanged and
the step is repeatable. -/
theorem c6_blocked_slot_idempotent_witness :
    (slotHolding 1).item = some ⟨7⟩
    ∧ (slotHolding 1).progress = 1
    ∧ 0 ≤ progressGrowth envEmpty
    ∧ updateSlot envEmpty emitterStatic (slotHolding 1)
        = some ⟨slotHolding 1, [⟨1, 0⟩], [], [], false⟩
    ∧ ((⟨slotHolding 1, [⟨1, 0⟩], [], [], false⟩ : SlotStepResult).slot
          = slotHolding 1
        ∧ (⟨slotHolding 1, [⟨1, 0⟩], [], [], false⟩ : SlotStepResult).delivered
          = []
        ∧ updateSlot envEmpty emitterStatic
            (⟨slotHolding 1, [⟨1, 0⟩], [], [], false⟩ : SlotStepResult).slot
          = some ⟨slotHolding 1, [⟨1, 0⟩], [], [], false⟩) :=
  ⟨rfl, rfl, by norm_num [progressGrowth, envEmpty],
    by
      norm_num [slotHolding, progressGrowth, envEmpty, emitterStatic,
        updateSlot, min_def, StaticMapEntityComponent.localTileToWorld,
        StaticMapEntityComponent.localDirectionToWorld,
        StaticMapEntityComponent.applyRotationToVector,
        Vec2.rotateFastMultipleOf90, transformDirectionFromMultipleOf90,
        enumDirectionToVector, Vec2.add_def],
    c6_blocked_slot_idempotent envEmpty emitterStatic (slotHolding 1) ⟨7⟩
      ⟨slotHolding 1, [⟨1, 0⟩], [], [], false⟩ rfl rfl
      (by norm_num [progressGrowth, envEmpty])
      (by
        norm_num [slotHolding, progressGrowth, envEmpty, emitterStatic,
          updateSlot, min_def, StaticMapEntityComponent.localTileToWorld,
          StaticMapEntityComponent.localDirectionToWorld,
          StaticMapEntityComponent.applyRotationToVector,
          Vec2.rotateFastMultipleOf90, transformDirectionFromMultipleOf90,
          enumDirectionToVector, Vec2.add_def])
      rfl⟩

/-- C7: on a successful handoff the slot's held item becomes absent and
exactly one copy of the item is delivered to the receiver — no
duplication, no loss — while the slot keeps its advanced progress value 1
(it is not reset here) and its position and direction. -/
theorem c7_success_moves_item_once (env : GameEnv)
    (c : StaticMapEntityComponent) (slot : EjectorSlot) (it : BaseItem)
    (res : SlotStepResult) (hitem : slot.item = some it)
    (hstep : updateSlot env c slot = some res) (hsucc : res.success = true) :
    res.slot.item = none ∧ res.delivered = [it] ∧ res.slot.progress = 1
      ∧ res.slot.pos = slot.pos ∧ res.slot.direction = slot.direction := by
  rcases updateSlot_shape env c slot it res hitem hstep with
    ⟨hs, _, _⟩ | ⟨_, hslot, hdel, hmin⟩
  · rw [hsucc] at hs
    exact absurd hs (by simp)
  · rw [hslot]
    exact ⟨rfl, hdel, hmin, rfl, rfl⟩

/-- Witness for C7: the ready slot next to the accepting belt transfers
its item exactly once and is cleared. -/
theorem c7_success_moves_item_once_witness :
    (slotHolding 1).item = some ⟨7⟩
    ∧ updateSlot envWithBelt emitterStatic (slotHolding 1)
        = some ⟨⟨⟨0, 0⟩, Direction.right, none, 1⟩, [⟨1, 0⟩], [Cap.belt],
                [⟨7⟩], true⟩
    ∧ ((⟨⟨⟨0, 0⟩, Direction.right, none, 1⟩, [⟨1, 0⟩], [Cap.belt], [⟨7⟩],
          true⟩ : SlotStepResult).slot.item = none
        ∧ (⟨⟨⟨0, 0⟩, Direction.right, none, 1⟩, [⟨1, 0⟩], [Cap.belt], [⟨7⟩],
            true⟩ : SlotStepResult).delivered = [⟨7⟩]
        ∧ (⟨⟨⟨0, 0⟩, Direction.right, none, 1⟩, [⟨1, 0⟩], [Cap.belt], [⟨7⟩],
            true⟩ : SlotStepResult).slot.progress = 1
        ∧ (⟨⟨⟨0, 0⟩, Direction.right, none, 1⟩, [⟨1, 0⟩], [Cap.belt], [⟨7⟩],
            true⟩ : SlotStepResult).slot.pos = (slotHolding 1).pos
        ∧ (⟨⟨⟨0, 0⟩, Direction.right, none, 1⟩, [⟨1, 0⟩], [Cap.belt], [⟨7⟩],
            true⟩ : SlotStepResult).slot.direction
          = (slotHolding 1).direction) :=
  ⟨rfl,
    by
      norm_num [slotHolding, progressGrowth, envWithBelt, emitterStatic,
        acceptingBeltReceiver, updateSlot, min_def, tryPassOverItem,
        StaticMapEntityComponent.localTileToWorld,
        StaticMapEntityComponent.localDirectionToWorld,
        StaticMapEntityComponent.worldToLocalTile,
        StaticMapEntityComponent.worldDirectionToLocal,
        StaticMapEntityComponent.applyRotationToVector,
        StaticMapEntityComponent.unapplyRotationToVector,
        Vec2.rotateFastMultipleOf90, transformDirectionFromMultipleOf90,
        enumDirectionToVector, Vec2.add_def, Vec2.sub_def],
    c7_success_moves_item_once envWithBelt emitterStatic (slotHolding 1) ⟨7⟩
      ⟨⟨⟨0, 0⟩, Direction.right, none, 1⟩, [⟨1, 0⟩], [Cap.belt], [⟨7⟩], true⟩
      rfl
      (by
        norm_num [slotHolding, progressGrowth, envWithBelt, emitterStatic,
          acceptingBeltReceiver, updateSlot, min_def, tryPassOverItem,
          StaticMapEntityComponent.localTileToWorld,
          StaticMapEntityComponent.localDirectionToWorld,
          StaticMapEntityComponent.worldToLocalTile,
          StaticMapEntityComponent.worldDirectionToLocal,
          StaticMapEntityComponent.applyRotationToVector,
          StaticMapEntityComponent.unapplyRotationToVector,
          Vec2.rotateFastMultipleOf90, transformDirectionFromMultipleOf90,
          enumDirectionToVector, Vec2.add_def, Vec2.sub_def])
      rfl⟩

/-- C9 counterexample: at progress 0 the source draws the item at the
slot's tile center (half a tile in from the corner), not at the position
the claim's formula gives: with origin (0,0), rotation 0, slot (0,0)
pointing right and tileSize 32 the code yields pixel (16, 16) while the
claimed formula `entityOrigin + rotate(localPosition) +
rotate(localDirectionUnitVector) * 0.5 * progress` yields (0, 0). -/
theorem c9_counterexample :
    drawSlotPosition 32 emitterStatic (slotHolding 0) = some (some (16, 16))
    ∧ claimedDrawSlotPosition 32 emitterStatic (slotHolding 0)
        = some (some (0, 0)) := by
  constructor <;>
    norm_num [drawSlotPosition, claimedDrawSlotPosition, emitterStatic,
      slotHolding, Vec2.rotateFastMultipleOf90,
      transformDirectionFromMultipleOf90, enumDirectionToVector]

/-- C9 amended: for every non-idle slot the draw position exposed to the
renderer is `entityOrigin + rotate(localPosition) + (0.5, 0.5) +
rotate(localDirectionUnitVector) * 0.5 * progress` in tile units, scaled
by tileSize into pixels — the half-tile center offset places the item at
the slot's center for progress 0 and at the cell boundary for progress 1;
idle slots are not drawn. -/
theorem c9_draw_position (tileSize : ℚ) (c : StaticMapEntityComponent)
    (slot : EjectorSlot) (h : validRotation c.rotation) :
    (slot.item = none → drawSlotPosition tileSize c slot = some none)
    ∧ (slot.item.isSome = true →
        ∃ rp rd, slot.pos.rotateFastMultipleOf90 c.rotation = some rp
          ∧ transformDirectionFromMultipleOf90 slot.direction c.rotation
              = some rd
          ∧ drawSlotPosition tileSize c slot = some (some
              (((c.origin.x : ℚ) + (rp.x : ℚ) + 1 / 2
                  + ((enumDirectionToVector rd).x : ℚ) * (1 / 2)
                    * slot.progress) * tileSize,
               ((c.origin.y : ℚ) + (rp.y : ℚ) + 1 / 2
                  + ((enumDirectionToVector rd).y : ℚ) * (1 / 2)
                    * slot.progress) * tileSize))) := by
  constructor
  · intro h0
    simp [drawSlotPosition, h0]
  · intro hsome
    obtain ⟨it, hit⟩ := Option.isSome_iff_exists.mp hsome
    rcases h with h | h | h | h
    · refine ⟨slot.pos, slot.direction, ?_, ?_, ?_⟩ <;>
        simp [drawSlotPosition, hit, Vec2.rotateFastMultipleOf90,
          transformDirectionFromMultipleOf90, h]
    · refine ⟨⟨-slot.pos.y, slot.pos.x⟩, slot.direction.next, ?_, ?_, ?_⟩ <;>
        simp [drawSlotPosition, hit, Vec2.rotateFastMultipleOf90,
          transformDirectionFromMultipleOf90, h]
    · refine ⟨⟨-slot.pos.x, -slot.pos.y⟩, slot.direction.next.next, ?_, ?_,
        ?_⟩ <;>
        simp [drawSlotPosition, hit, Vec2.rotateFastMultipleOf90,
          transformDirectionFromMultipleOf90, h]
    · refine ⟨⟨slot.pos.y, -slot.pos.x⟩, slot.direction.next.next.next, ?_,
        ?_, ?_⟩ <;>
        simp [drawSlotPosition, hit, Vec2.rotateFastMultipleOf90,
          transformDirectionFromMultipleOf90, h]

/-- Witness for C9 amended: the held slot at rotation 0 and progress 1 is
drawn half a tile past its center toward the cell boundary. -/
theorem c9_draw_position_witness :
    validRotation emitterStatic.rotation
    ∧ (((slotHolding 1).item = none →
          drawSlotPosition 32 emitterStatic (slotHolding 1) = some none)
      ∧ ((slotHolding 1).item.isSome = true →
          ∃ rp rd, (slotHolding 1).pos.rotateFastMultipleOf90
              emitterStatic.rotation = some rp
            ∧ transformDirectionFromMultipleOf90 (slotHolding 1).direction
                emitterStatic.rotation = some rd
            ∧ drawSlotPosition 32 emitterStatic (slotHolding 1) = some (some
                (((emitterStatic.origin.x : ℚ) + (rp.x : ℚ) + 1 / 2
                    + ((enumDirectionToVector rd).x : ℚ) * (1 / 2)
                      * (slotHolding 1).progress) * 32,
                 ((emitterStatic.origin.y : ℚ) + (rp.y : ℚ) + 1 / 2
                    + ((enumDirectionToVector rd).y : ℚ) * (1 / 2)
                      * (slotHolding 1).progress) * 32)))) :=
  ⟨by decide,
    c9_draw_position 32 emitterStatic (slotHolding 1) (by decide)⟩
